import Mathlib

/-!
# QupZilla: bookmark items and web tabs

A shallow embedding of two pieces of the browser:

* `src/lib/bookmarks/bookmarkitem.h` declares the class `BookmarkItem`: its
  `Type` enumeration, its fields and the signatures of its member functions.
  The bodies of the member functions live in `bookmarkitem.cpp`; where a body
  is needed it is modelled from the written specification of the bookmark tree
  and marked as such.
* `src/lib/webview/webtab.cpp` defines `WebTab` and `WebTab::SavedTab`; the
  definitions below follow that file statement by statement.  Qt classes
  (`QUrl`, `QIcon`, `QDataStream`, the tab bar, the web view, ...) are
  external; each is represented by the part of its state the code touches.

Pointers are addresses (`Nat`), a null pointer is `none`, and the objects they
point to live in a heap that is passed explicitly.
-/

/-! ## Bookmark items: data model (bookmarkitem.h) -/

namespace BookmarkItem

/-- The enumeration `BookmarkItem::Type`, lines 30-36 of the header. -/
inductive ItemType where
  | Root
  | Url
  | Folder
  | Separator
  | Invalid
  deriving DecidableEq, Repr

end BookmarkItem

/-- The private fields of the class `BookmarkItem`, lines 73-81 of the header.
`m_parent` is a pointer (null is `none`), `m_children` a `QList` of pointers. -/
structure BookmarkItem where
  m_type : BookmarkItem.ItemType
  m_parent : Option Nat
  m_children : List Nat
  m_url : String
  m_title : String
  m_description : String
  m_keyword : String
  m_expanded : Bool
  deriving DecidableEq, Repr

namespace BookmarkItem

/-- The heap of bookmark items: the object stored at each address. -/
abbrev Heap := Nat → BookmarkItem

/-- A heap together with the number of items allocated so far; the live
addresses are `0 .. count - 1` and the next `new BookmarkItem` gets `count`. -/
structure Store where
  heap : Heap
  count : Nat

/-- A freshly built item: nothing set but its kind. -/
def blank (type : ItemType) : BookmarkItem :=
  { m_type := type, m_parent := none, m_children := [], m_url := "", m_title := "",
    m_description := "", m_keyword := "", m_expanded := false }

/-- The heap in which every item is detached and childless. -/
def detachedHeap (type : Nat → ItemType) : Heap := fun a => blank (type a)

/-- The accessor `BookmarkItem::parent() const`. -/
def parent (h : Heap) (self : Nat) : Option Nat := (h self).m_parent

/-- The accessor `BookmarkItem::children() const`. -/
def children (h : Heap) (self : Nat) : List Nat := (h self).m_children

/-- The accessor `BookmarkItem::type() const`. -/
def type (h : Heap) (self : Nat) : ItemType := (h self).m_type

/-- Ordinary sequence insertion: `c` is put before the element at position `i`,
and after the last element when the list is shorter than `i`. -/
def insertAt (c : Nat) : Nat → List Nat → List Nat
  | 0, l => c :: l
  | _ + 1, [] => [c]
  | i + 1, x :: l => x :: insertAt c i l

/-- Modelled from the spec: the body of `BookmarkItem::addChild(child, index)`
(`bookmarkitem.cpp`), of which the header only has the declaration.  The spec:
"inserts `child` into this node's children sequence at `index` (or appended if
index is out of range/unspecified), and sets `child.parent` to this node ... No
error is raised".  No check is made that `child` is detached. -/
def addChild (h : Heap) (self child : Nat) (index : Int) : Heap :=
  let l := (h self).m_children
  let l1 := if 0 ≤ index ∧ index ≤ (l.length : Int) then insertAt child index.toNat l
            else l ++ [child]
  let h1 := Function.update h self { h self with m_children := l1 }
  Function.update h1 child { h1 child with m_parent := some self }

/-- Modelled from the spec: the body of `BookmarkItem::removeChild(child)`
(`bookmarkitem.cpp`), of which the header only has the declaration.  The spec:
"removes the first occurrence of `child` from the children sequence and clears
its parent reference to none.  No-op ... if `child` is not present". -/
def removeChild (h : Heap) (self child : Nat) : Heap :=
  if child ∈ (h self).m_children then
    let h1 := Function.update h self
      { h self with m_children := (h self).m_children.erase child }
    Function.update h1 child { h1 child with m_parent := none }
  else h

/-- Modelled from the spec: the body of the constructor
`BookmarkItem(Type type, BookmarkItem* parent = 0)` (`bookmarkitem.cpp`), of
which the header only has the declaration.  The spec: "creates a node of the
given kind; if `parent` given, the node is NOT auto-attached", "create returns
a detached node".  The result is the address of the new item and the new
store. -/
def construct (s : Store) (type : ItemType) (_parent : Option Nat) : Nat × Store :=
  (s.count, { heap := Function.update s.heap s.count (blank type), count := s.count + 1 })

/-- The strings by which the five kinds are written.  The spec says there is
one per kind and does not give them. -/
structure TypeStrings where
  root : String
  url : String
  folder : String
  separator : String
  invalid : String

/-- No two kinds share a string. -/
def TypeStrings.Distinct (n : TypeStrings) : Prop :=
  [n.root, n.url, n.folder, n.separator, n.invalid].Nodup

/-- Modelled from the spec: the body of `BookmarkItem::typeToString(type)`
(`bookmarkitem.cpp`), of which the header only has the declaration.  The spec:
"total ... string mappings for the five kind values". -/
def typeToString (n : TypeStrings) : ItemType → String
  | .Root => n.root
  | .Url => n.url
  | .Folder => n.folder
  | .Separator => n.separator
  | .Invalid => n.invalid

/-- Modelled from the spec: the body of `BookmarkItem::typeFromString(string)`
(`bookmarkitem.cpp`), of which the header only has the declaration.  The spec:
the inverse of `typeToString`, "unknown strings map to Invalid". -/
def typeFromString (n : TypeStrings) (string : String) : ItemType :=
  if string = n.root then .Root
  else if string = n.url then .Url
  else if string = n.folder then .Folder
  else if string = n.separator then .Separator
  else .Invalid

/-- A store is well formed when the children of every live item are live. -/
def Store.WellFormed (s : Store) : Prop :=
  ∀ q, q < s.count → ∀ c ∈ children s.heap q, c < s.count

/-- A call of one of the two structural mutators. -/
inductive Call where
  | addChild (self child : Nat) (index : Int)
  | removeChild (self child : Nat)
  deriving DecidableEq, Repr

/-- The heap after one call. -/
def Call.apply (h : Heap) : Call → Heap
  | .addChild self child index => BookmarkItem.addChild h self child index
  | .removeChild self child => BookmarkItem.removeChild h self child

end BookmarkItem

/-! ## Web tabs: Qt types used by webtab.cpp -/

/-- The Qt class `QString`. -/
abbrev QString := String

/-- The Qt class `QUrl`, represented by the text of the URL. -/
abbrev QUrl := String

/-- The Qt class `QByteArray`: a sequence of bytes. -/
abbrev QByteArray := List Nat

/-- The Qt class `QPixmap`, represented by its pixel data. -/
structure QPixmap where
  data : List Nat
  deriving DecidableEq, Repr

/-- The Qt class `QIcon`, represented by its image data; `QIcon()` has none. -/
structure QIcon where
  data : List Nat
  deriving DecidableEq, Repr

/-- The Qt class `QColor`. -/
structure QColor where
  red : Nat
  green : Nat
  blue : Nat
  deriving DecidableEq, Repr

/-- The Qt operations on icons and colours that webtab.cpp calls. -/
structure QtGui where
  /-- The call `QIcon::pixmap(int extent)`. -/
  pixmap : QIcon → Nat → QPixmap
  /-- The constructor `QIcon(const QPixmap &)`. -/
  iconOfPixmap : QPixmap → QIcon
  /-- The call `QColor::lighter(int factor)`. -/
  lighter : QColor → Nat → QColor

/-- The colour `Qt::black`. -/
def Qt.black : QColor := ⟨0, 0, 0⟩

/-- The colour `Qt::white`. -/
def Qt.white : QColor := ⟨255, 255, 255⟩

/-- The colour `Qt::gray`. -/
def Qt.gray : QColor := ⟨160, 160, 164⟩

/-- The call `QUrl::isEmpty()`. -/
def QUrl.isEmpty (url : QUrl) : Bool := decide (url = "")

/-- One value in a `QDataStream`.  The byte encoding of each value is Qt's;
the stream is taken as the sequence of values written to it. -/
inductive StreamItem where
  | int (v : Int)
  | string (s : QString)
  | url (u : QUrl)
  | pixmap (p : QPixmap)
  | byteArray (b : QByteArray)
  deriving DecidableEq, Repr

/-- The Qt class `QDataStream`: the values still to be read (reading) or the
values written so far (writing). -/
abbrev QDataStream := List StreamItem

namespace QDataStream

/-- The read `stream >> int`; `none` when the next value is not an int. -/
def readInt : QDataStream → Option (Int × QDataStream)
  | .int v :: rest => some (v, rest)
  | _ => none

/-- The read `stream >> QString`; `none` when the next value is not a string. -/
def readString : QDataStream → Option (QString × QDataStream)
  | .string v :: rest => some (v, rest)
  | _ => none

/-- The read `stream >> QUrl`; `none` when the next value is not a URL. -/
def readUrl : QDataStream → Option (QUrl × QDataStream)
  | .url v :: rest => some (v, rest)
  | _ => none

/-- The read `stream >> QPixmap`; `none` when the next value is not a pixmap. -/
def readPixmap : QDataStream → Option (QPixmap × QDataStream)
  | .pixmap v :: rest => some (v, rest)
  | _ => none

/-- The read `stream >> QByteArray`; `none` when the next value is not a byte
array. -/
def readByteArray : QDataStream → Option (QByteArray × QDataStream)
  | .byteArray v :: rest => some (v, rest)
  | _ => none

end QDataStream

/-! ## Web tabs: webtab.cpp -/

/-- The constant `savedTabVersion`, line 35. -/
def savedTabVersion : Int := 1

/-- The class `TabbedWebView` as far as `WebTab` uses it: what its getters
return, and a record of what it was asked to load and of the history data
streamed into `history()`. -/
structure TabbedWebView where
  url : QUrl
  title : QString
  icon : QIcon
  /-- What `stream << *history()` writes. -/
  historyBytes : QByteArray
  tabIndex : Int
  /-- The arguments of the calls of `load`, oldest first. -/
  loadCalls : List QUrl
  /-- The byte arrays read into `*history()`, oldest first. -/
  historyReads : List QByteArray
  deriving DecidableEq, Repr

/-- The class `TabBar` as far as `WebTab::restoreTab` and `slotRestore` use it. -/
structure TabBar where
  /-- The colour `palette().text().color()`. -/
  textColor : QColor
  tabText : Int → QString
  /-- The colour set by `overrideTabTextColor`, until `restoreTabTextColor`. -/
  overriddenColor : Int → Option QColor

/-- The class `LocationBar` as far as `WebTab::restoreTab` uses it. -/
structure LocationBar where
  shownUrl : QUrl
  deriving DecidableEq, Repr

/-- The class `TabIcon` as far as `WebTab::restoreTab` uses it. -/
structure TabIcon where
  icon : QIcon
  deriving DecidableEq, Repr

namespace WebTab

/-- The struct `WebTab::SavedTab`. -/
structure SavedTab where
  title : QString
  url : QUrl
  icon : QIcon
  history : QByteArray
  deriving DecidableEq, Repr

end WebTab

/-- The fields of `WebTab` that the functions below read or write, each object
held in place of the pointer to it, and the number of `slotRestore` calls
queued by `QTimer::singleShot` and not yet run. -/
structure WebTab where
  m_webView : TabbedWebView
  m_tabBar : TabBar
  m_locationBar : LocationBar
  m_tabIcon : TabIcon
  m_savedTab : WebTab.SavedTab
  m_isPinned : Bool
  m_inspectorVisible : Bool
  queuedSlotRestore : Nat

namespace WebTab

/-- The function `WebTab::SavedTab::isEmpty`, lines 45-48. -/
def SavedTab.isEmpty (tab : SavedTab) : Bool := QUrl.isEmpty tab.url

/-- The function `WebTab::SavedTab::clear`, lines 50-56. -/
def SavedTab.clear (_tab : SavedTab) : SavedTab :=
  { title := "", url := "", icon := ⟨[]⟩, history := [] }

/-- The operator `operator<<(QDataStream&, const WebTab::SavedTab&)`, lines 58-67. -/
def writeSavedTab (qt : QtGui) (stream : QDataStream) (tab : SavedTab) : QDataStream :=
  let stream := stream ++ [StreamItem.int savedTabVersion]
  let stream := stream ++ [StreamItem.string tab.title]
  let stream := stream ++ [StreamItem.url tab.url]
  let stream := stream ++ [StreamItem.pixmap (qt.pixmap tab.icon 16)]
  let stream := stream ++ [StreamItem.byteArray tab.history]
  stream

/-- The operator `operator>>(QDataStream&, WebTab::SavedTab&)`, lines 69-83:
the stream left over and the tab read, or `none` when some read fails. -/
def readSavedTab (qt : QtGui) (stream : QDataStream) (tab : SavedTab) :
    Option (QDataStream × SavedTab) := do
  let (_version, stream) ← QDataStream.readInt stream
  let (title, stream) ← QDataStream.readString stream
  let tab := { tab with title := title }
  let (url, stream) ← QDataStream.readUrl stream
  let tab := { tab with url := url }
  let (pixmap, stream) ← QDataStream.readPixmap stream
  let (history, stream) ← QDataStream.readByteArray stream
  let tab := { tab with history := history }
  let tab := { tab with icon := qt.iconOfPixmap pixmap }
  pure (stream, tab)

/-- The function `WebTab::isRestored`, lines 259-262. -/
def isRestored (self : WebTab) : Bool := self.m_savedTab.isEmpty

/-- The function `WebTab::tabIndex`, lines 376-379. -/
def tabIndex (self : WebTab) : Int := self.m_webView.tabIndex

/-- The function `WebTab::url`, lines 136-144. -/
def url (self : WebTab) : QUrl :=
  if isRestored self then self.m_webView.url else self.m_savedTab.url

/-- The function `WebTab::title`, lines 146-154. -/
def title (self : WebTab) : QString :=
  if isRestored self then self.m_webView.title else self.m_savedTab.title

/-- The function `WebTab::icon`, lines 156-164. -/
def icon (self : WebTab) : QIcon :=
  if isRestored self then self.m_webView.icon else self.m_savedTab.icon

/-- The function `WebTab::historyData`, lines 199-212; `qtwebengineDisabled` is
the value of the macro `QTWEBENGINE_DISABLED`. -/
def historyData (qtwebengineDisabled : Bool) (self : WebTab) : QByteArray :=
  if isRestored self then
    let historyArray : QByteArray := []
    if qtwebengineDisabled then historyArray ++ self.m_webView.historyBytes else historyArray
  else self.m_savedTab.history

/-- The constructor `WebTab::SavedTab::SavedTab(WebTab*)`, lines 37-43. -/
def SavedTab.ofWebTab (qtwebengineDisabled : Bool) (webTab : WebTab) : SavedTab :=
  { title := WebTab.title webTab, url := WebTab.url webTab, icon := WebTab.icon webTab,
    history := WebTab.historyData qtwebengineDisabled webTab }

/-- The function `WebTab::p_restoreTab(const QUrl&, const QByteArray&)`,
lines 292-298. -/
def p_restoreTabUrl (self : WebTab) (url : QUrl) (history : QByteArray) : WebTab :=
  let webView := { self.m_webView with loadCalls := self.m_webView.loadCalls ++ [url] }
  let webView := { webView with historyReads := webView.historyReads ++ [history] }
  { self with m_webView := webView }

/-- The function `WebTab::p_restoreTab(const WebTab::SavedTab&)`, lines 300-303. -/
def p_restoreTab (self : WebTab) (tab : SavedTab) : WebTab :=
  p_restoreTabUrl self tab.url tab.history

/-- The function `WebTab::restoreTab`, lines 264-290; `loadTabsOnActivation` is
the setting `qzSettings->loadTabsOnActivation`. -/
def restoreTab (qt : QtGui) (loadTabsOnActivation : Bool) (self : WebTab) (tab : SavedTab) :
    WebTab :=
  if loadTabsOnActivation then
    let self := { self with m_savedTab := tab }
    let index := tabIndex self
    let self := { self with m_tabBar :=
      { self.m_tabBar with tabText := Function.update self.m_tabBar.tabText index tab.title } }
    let self := { self with m_locationBar := { shownUrl := tab.url } }
    let self := { self with m_tabIcon := { icon := tab.icon } }
    if !QUrl.isEmpty tab.url then
      let col := self.m_tabBar.textColor
      let newCol := qt.lighter col 250
      let newCol := if col = Qt.black ∨ col = Qt.white then Qt.gray else newCol
      { self with m_tabBar :=
        { self.m_tabBar with
          overriddenColor := Function.update self.m_tabBar.overriddenColor index (some newCol) } }
    else self
  else p_restoreTab self tab

/-- The slot `WebTab::slotRestore`, lines 363-369. -/
def slotRestore (self : WebTab) : WebTab :=
  let self := p_restoreTab self self.m_savedTab
  let self := { self with m_savedTab := self.m_savedTab.clear }
  { self with m_tabBar :=
    { self.m_tabBar with
      overriddenColor := Function.update self.m_tabBar.overriddenColor (tabIndex self) none } }

/-- The function `WebTab::setCurrentTab`, lines 123-134; `isRestoring` is the
value of `mApp->isRestoring()`.  `QTimer::singleShot(0, this, SLOT(slotRestore()))`
queues one more call of `slotRestore`. -/
def setCurrentTab (isRestoring : Bool) (self : WebTab) : WebTab :=
  if !isRestored self then
    if isRestoring then slotRestore self
    else { self with queuedSlotRestore := self.queuedSlotRestore + 1 }
  else self

/-- A Qt in which the 16-pixel pixmap of an icon and the icon of a pixmap keep
the image data, and `lighter` adds to each channel. -/
def sampleQt : QtGui :=
  { pixmap := fun i _ => ⟨i.data⟩, iconOfPixmap := fun p => ⟨p.data⟩,
    lighter := fun c f => ⟨c.red + f, c.green + f, c.blue + f⟩ }

/-- A tab whose page is loaded: nothing saved, nothing queued. -/
def sampleTab : WebTab :=
  { m_webView := { url := "http://a.example/", title := "A", icon := ⟨[1]⟩, historyBytes := [7],
                   tabIndex := 2, loadCalls := [], historyReads := [] },
    m_tabBar := { textColor := Qt.black, tabText := fun _ => "", overriddenColor := fun _ => none },
    m_locationBar := { shownUrl := "" },
    m_tabIcon := { icon := ⟨[]⟩ },
    m_savedTab := { title := "", url := "", icon := ⟨[]⟩, history := [] },
    m_isPinned := false, m_inspectorVisible := false, queuedSlotRestore := 0 }

/-- A saved tab with a non-empty URL. -/
def sampleSaved : SavedTab :=
  { title := "B", url := "http://b.example/", icon := ⟨[2, 3]⟩, history := [4, 5, 6] }

end WebTab

/-! ## Bookmark items: lemmas -/

namespace BookmarkItem

theorem insertAt_eq_take_drop (c : Nat) (i : Nat) (l : List Nat) (hi : i ≤ l.length) :
    insertAt c i l = l.take i ++ c :: l.drop i := by
  induction l generalizing i with
  | nil =>
    have : i = 0 := by simpa using hi
    subst this
    simp [insertAt]
  | cons x l ih =>
    cases i with
    | zero => simp [insertAt]
    | succ i =>
      have hi1 : i ≤ l.length := by simpa using hi
      simp [insertAt, ih i hi1]

theorem insertAt_getElem? (c : Nat) (i : Nat) (l : List Nat) (hi : i ≤ l.length) :
    (insertAt c i l)[i]? = some c := by
  induction l generalizing i with
  | nil =>
    have : i = 0 := by simpa using hi
    subst this
    simp [insertAt]
  | cons x l ih =>
    cases i with
    | zero => simp [insertAt]
    | succ i =>
      have hi1 : i ≤ l.length := by simpa using hi
      simp [insertAt, ih i hi1]

/-- The children list that `addChild` stores in `self`. -/
theorem children_addChild (h : Heap) (self child : Nat) (index : Int) (q : Nat) :
    children (addChild h self child index) q =
      if q = self then
        (if 0 ≤ index ∧ index ≤ ((children h self).length : Int)
          then insertAt child index.toNat (children h self)
          else children h self ++ [child])
      else children h q := by
  unfold addChild children
  simp only [Function.update_apply]
  by_cases hqc : q = child <;> by_cases hqs : q = self
  · subst hqc; subst hqs; simp
  · subst hqc; simp [hqs]
  · subst hqs; simp [hqc]
  · simp [hqc, hqs]

theorem parent_addChild (h : Heap) (self child : Nat) (index : Int) (n : Nat) :
    parent (addChild h self child index) n = if n = child then some self else parent h n := by
  unfold addChild parent
  simp only [Function.update_apply]
  by_cases hnc : n = child <;> by_cases hns : n = self
  · subst hnc; subst hns; simp
  · subst hnc; simp [hns]
  · subst hns; simp [hnc]
  · simp [hnc, hns]

/-- A string that is not the string of Root, Url, Folder or Separator is read as
Invalid, whatever the five strings are. -/
theorem typeFromString_of_unknown (names : TypeStrings) (s : String)
    (hs : ∀ k, k ≠ ItemType.Invalid → s ≠ typeToString names k) :
    typeFromString names s = ItemType.Invalid := by
  have h1 := hs .Root (by decide)
  have h2 := hs .Url (by decide)
  have h3 := hs .Folder (by decide)
  have h4 := hs .Separator (by decide)
  simp only [typeToString] at h1 h2 h3 h4
  simp [typeFromString, h1, h2, h3, h4]

/-- Reading back the string of a kind gives that kind, for all five kinds,
exactly when the five strings are pairwise different.  Neither the header nor
the spec gives the strings. -/
theorem typeFromString_typeToString_iff (names : TypeStrings) :
    (∀ k, typeFromString names (typeToString names k) = k) ↔ names.Distinct := by
  unfold TypeStrings.Distinct
  simp only [List.nodup_cons, List.mem_cons, List.mem_singleton, not_or, List.not_mem_nil,
    not_false_eq_true, List.nodup_nil, and_true]
  constructor
  · intro h
    have hU := h .Url
    have hF := h .Folder
    have hS := h .Separator
    have hI := h .Invalid
    simp only [typeFromString, typeToString] at hU hF hS hI
    have e12 : names.root ≠ names.url := fun e => by simp [e] at hU
    have e13 : names.root ≠ names.folder := fun e => by simp [e] at hF
    have e14 : names.root ≠ names.separator := fun e => by simp [e] at hS
    have e15 : names.root ≠ names.invalid := fun e => by simp [e] at hI
    have e23 : names.url ≠ names.folder := fun e => by
      simp [← e, Ne.symm e12] at hF
    have e24 : names.url ≠ names.separator := fun e => by
      simp [← e, Ne.symm e12] at hS
    have e25 : names.url ≠ names.invalid := fun e => by
      simp [← e, Ne.symm e12] at hI
    have e34 : names.folder ≠ names.separator := fun e => by
      simp [← e, Ne.symm e13, Ne.symm e23] at hS
    have e35 : names.folder ≠ names.invalid := fun e => by
      simp [← e, Ne.symm e13, Ne.symm e23] at hI
    have e45 : names.separator ≠ names.invalid := fun e => by
      simp [← e, Ne.symm e14, Ne.symm e24, Ne.symm e34] at hI
    exact ⟨⟨e12, e13, e14, e15⟩, ⟨e23, e24, e25⟩, ⟨e34, e35⟩, e45⟩
  · rintro ⟨⟨h1, h2, h3, h4⟩, ⟨h5, h6, h7⟩, ⟨h8, h9⟩, h10⟩ k
    cases k <;> simp [typeFromString, typeToString, Ne.symm, *]

end BookmarkItem

/-! ## Bookmark items: the properties of the specification -/

namespace BookmarkItem

/-- C1: after `parent.addChild(n, i)` the parent of `n` is `parent` (whether or
not `n` was detached before); when `0 <= i <= ` the number of children before
the call, `n` is at position `i` of `parent.children()`; for every other `i`
(the default `-1` included) `n` is the last element of `parent.children()`. -/
theorem addChild_parent_and_position (h : Heap) (self n : Nat) (i : Int) :
    parent (addChild h self n i) n = some self ∧
    (0 ≤ i ∧ i ≤ ((children h self).length : Int) →
      (children (addChild h self n i) self)[i.toNat]? = some n) ∧
    (¬ (0 ≤ i ∧ i ≤ ((children h self).length : Int)) →
      (children (addChild h self n i) self).getLast? = some n) := by
  refine ⟨?_, ?_, ?_⟩
  · rw [parent_addChild, if_pos rfl]
  · intro hi
    rw [children_addChild, if_pos rfl, if_pos hi]
    apply insertAt_getElem?
    omega
  · intro hi
    rw [children_addChild, if_pos rfl, if_neg hi]
    simp

/-- C1 at concrete inputs: into the children `[1, 2]` of item 0, item 3 goes to
position 1 with index 1, and to the end with index -1 and with index 7. -/
theorem addChild_parent_and_position_witness :
    (children (addChild (addChild (addChild (detachedHeap fun _ => .Url) 0 1 (-1)) 0 2 (-1)) 0 3 1) 0)[1]?
        = some 3 ∧
    (children (addChild (addChild (addChild (detachedHeap fun _ => .Url) 0 1 (-1)) 0 2 (-1)) 0 3 (-1)) 0).getLast?
        = some 3 ∧
    (children (addChild (addChild (addChild (detachedHeap fun _ => .Url) 0 1 (-1)) 0 2 (-1)) 0 3 7) 0).getLast?
        = some 3 :=
  ⟨(addChild_parent_and_position
      (addChild (addChild (detachedHeap fun _ => .Url) 0 1 (-1)) 0 2 (-1)) 0 3 1).2.1 (by decide),
   (addChild_parent_and_position
      (addChild (addChild (detachedHeap fun _ => .Url) 0 1 (-1)) 0 2 (-1)) 0 3 (-1)).2.2 (by decide),
   (addChild_parent_and_position
      (addChild (addChild (detachedHeap fun _ => .Url) 0 1 (-1)) 0 2 (-1)) 0 3 7).2.2 (by decide)⟩

/-- C5: for `0 <= i <= |L|`, after `addChild(c, i)` on an item whose children
are `L` the children are `L[0..i) ++ [c] ++ L[i..)`; and from an item without
children, adding `a` at 0, then `b` at 0, then `c` at 1 gives the children
`[b, c, a]`. -/
theorem addChild_sequence_insert :
    (∀ (h : Heap) (self c : Nat) (i : Int), 0 ≤ i → i ≤ ((children h self).length : Int) →
      children (addChild h self c i) self
        = (children h self).take i.toNat ++ [c] ++ (children h self).drop i.toNat) ∧
    (∀ (h : Heap) (self a b c : Nat), children h self = [] →
      children (addChild (addChild (addChild h self a 0) self b 0) self c 1) self = [b, c, a]) := by
  constructor
  · intro h self c i h0 hlen
    rw [children_addChild, if_pos rfl, if_pos ⟨h0, hlen⟩, insertAt_eq_take_drop _ _ _ (by omega)]
    simp
  · intro h self a b c hnil
    have e1 : children (addChild h self a 0) self = [a] := by
      rw [children_addChild, if_pos rfl, hnil]; rfl
    have e2 : children (addChild (addChild h self a 0) self b 0) self = [b, a] := by
      rw [children_addChild, if_pos rfl, e1]; rfl
    rw [children_addChild, if_pos rfl, e2]; rfl

/-- C5 at concrete inputs: item 9 added at index 1 to the children `[1, 2]`, and
the scenario of the spec with A = 1, B = 2, C = 3. -/
theorem addChild_sequence_insert_witness :
    children (addChild (addChild (addChild (detachedHeap fun _ => .Url) 0 1 (-1)) 0 2 (-1)) 0 9 1) 0
      = [1, 9, 2] ∧
    children (addChild (addChild (addChild (detachedHeap fun _ => .Folder) 0 1 0) 0 2 0) 0 3 1) 0
      = [2, 3, 1] :=
  ⟨addChild_sequence_insert.1
      (addChild (addChild (detachedHeap fun _ => .Url) 0 1 (-1)) 0 2 (-1)) 0 9 1
      (by decide) (by decide),
   addChild_sequence_insert.2 (detachedHeap fun _ => .Folder) 0 1 2 3 rfl⟩

/-- C6: in a well-formed store, constructing an item with the parent argument
`p` (a live item) leaves the children of `p` as they were, and they do not
contain the new item; a following `p.addChild(new)` is what puts it there. -/
theorem construct_does_not_attach (s : Store) (k : ItemType) (p : Nat)
    (hwf : s.WellFormed) (hp : p < s.count) :
    children (construct s k (some p)).2.heap p = children s.heap p ∧
    (construct s k (some p)).1 ∉ children (construct s k (some p)).2.heap p ∧
    children (addChild (construct s k (some p)).2.heap p (construct s k (some p)).1 (-1)) p
      = children s.heap p ++ [(construct s k (some p)).1] := by
  have hne : p ≠ s.count := Nat.ne_of_lt hp
  have hsame : children (construct s k (some p)).2.heap p = children s.heap p := by
    simp [construct, children, Function.update_apply, hne]
  refine ⟨hsame, ?_, ?_⟩
  · rw [hsame]
    intro hin
    have := hwf p hp _ hin
    simp [construct] at this
  · rw [children_addChild, if_pos rfl, hsame]
    simp

/-- C6 at a concrete input: two live items, item 1 a child of item 0; a Url item
is constructed with parent argument 0. -/
theorem construct_does_not_attach_witness :
    children (construct ⟨addChild (detachedHeap fun _ => .Folder) 0 1 (-1), 2⟩ .Url (some 0)).2.heap 0
      = [1] ∧
    (construct ⟨addChild (detachedHeap fun _ => .Folder) 0 1 (-1), 2⟩ .Url (some 0)).1 ∉
      children (construct ⟨addChild (detachedHeap fun _ => .Folder) 0 1 (-1), 2⟩ .Url (some 0)).2.heap 0 :=
  have hwf : Store.WellFormed ⟨addChild (detachedHeap fun _ => .Folder) 0 1 (-1), 2⟩ := by
    intro q hq c hc
    have hq2 : q = 0 ∨ q = 1 := by
      have : q < 2 := hq
      omega
    rcases hq2 with e | e <;> subst e
    · have : c ∈ [1] := hc
      have : c = 1 := by simpa using this
      subst this
      decide
    · have : c ∈ ([] : List Nat) := hc
      cases this
  have hthm := construct_does_not_attach ⟨addChild (detachedHeap fun _ => .Folder) 0 1 (-1), 2⟩
    .Url 0 hwf (by decide)
  ⟨hthm.1, hthm.2.1⟩

end BookmarkItem

/-! ## Web tabs: the properties of the specification -/

namespace WebTab

theorem isEmpty_eq_false_of_ne (tab : SavedTab) (hurl : tab.url ≠ "") : tab.isEmpty = false := by
  simp [SavedTab.isEmpty, QUrl.isEmpty, hurl]

/-- C8: with `loadTabsOnActivation` on and a saved tab whose URL is not empty,
after `restoreTab(tab)` the tab is not restored, the web view is as it was (it
was asked to load nothing and no history was read into it), no `slotRestore` was
queued, and `url()`, `title()`, `icon()` and `historyData()` return the saved
URL, title, icon and history. -/
theorem restoreTab_on_activation (qt : QtGui) (qtwebengineDisabled : Bool) (self : WebTab)
    (tab : SavedTab) (hurl : tab.url ≠ "") :
    isRestored (restoreTab qt true self tab) = false ∧
    (restoreTab qt true self tab).m_webView = self.m_webView ∧
    (restoreTab qt true self tab).queuedSlotRestore = self.queuedSlotRestore ∧
    url (restoreTab qt true self tab) = tab.url ∧
    title (restoreTab qt true self tab) = tab.title ∧
    icon (restoreTab qt true self tab) = tab.icon ∧
    historyData qtwebengineDisabled (restoreTab qt true self tab) = tab.history := by
  have hne : QUrl.isEmpty tab.url = false := by simp [QUrl.isEmpty, hurl]
  have hsaved : (restoreTab qt true self tab).m_savedTab = tab := by
    simp [restoreTab, hne]
  have hrest : isRestored (restoreTab qt true self tab) = false := by
    rw [isRestored, hsaved]
    exact isEmpty_eq_false_of_ne tab hurl
  refine ⟨hrest, ?_, ?_, ?_, ?_, ?_, ?_⟩
  · simp [restoreTab, hne]
  · simp [restoreTab, hne]
  · simp [url, hrest, hsaved]
  · simp [title, hrest, hsaved]
  · simp [icon, hrest, hsaved]
  · simp [historyData, hrest, hsaved]

/-- C8 at a concrete input: the sample saved tab is handed to the sample tab. -/
theorem restoreTab_on_activation_witness :
    sampleSaved.url ≠ "" ∧
    isRestored (restoreTab sampleQt true sampleTab sampleSaved) = false ∧
    (restoreTab sampleQt true sampleTab sampleSaved).m_webView.loadCalls = [] ∧
    url (restoreTab sampleQt true sampleTab sampleSaved) = "http://b.example/" :=
  have hthm := restoreTab_on_activation sampleQt false sampleTab sampleSaved (by decide)
  ⟨by decide, hthm.1, by rw [hthm.2.1]; rfl, hthm.2.2.2.1⟩

/-- C9: `slotRestore()` gives the web view one `load` call, with the URL the
saved tab had before the call, and reads the history the saved tab had before
the call into the view's history; afterwards the saved tab is cleared (title,
URL and history empty, null icon) and `isRestored()` is true.  After that,
`setCurrentTab()` changes nothing, and a second `slotRestore()` calls `load`
with the empty URL and reads the empty history, so a saved URL that was not
empty is requested no more often than before. -/
theorem slotRestore_loads_then_clears (self : WebTab) :
    (slotRestore self).m_webView.loadCalls
      = self.m_webView.loadCalls ++ [self.m_savedTab.url] ∧
    (slotRestore self).m_webView.historyReads
      = self.m_webView.historyReads ++ [self.m_savedTab.history] ∧
    (slotRestore self).m_savedTab = { title := "", url := "", icon := ⟨[]⟩, history := [] } ∧
    isRestored (slotRestore self) = true ∧
    (∀ isRestoring : Bool, setCurrentTab isRestoring (slotRestore self) = slotRestore self) ∧
    (slotRestore (slotRestore self)).m_webView.loadCalls
      = (slotRestore self).m_webView.loadCalls ++ [""] ∧
    (slotRestore (slotRestore self)).m_webView.historyReads
      = (slotRestore self).m_webView.historyReads ++ [[]] ∧
    (self.m_savedTab.url ≠ "" →
      (slotRestore (slotRestore self)).m_webView.loadCalls.count self.m_savedTab.url
        = (slotRestore self).m_webView.loadCalls.count self.m_savedTab.url) := by
  have hsaved : (slotRestore self).m_savedTab
      = { title := "", url := "", icon := ⟨[]⟩, history := [] } := by
    simp [slotRestore, SavedTab.clear]
  have hrest : isRestored (slotRestore self) = true := by
    rw [isRestored, hsaved]; rfl
  have hsecond : (slotRestore (slotRestore self)).m_webView.loadCalls
      = (slotRestore self).m_webView.loadCalls ++ [""] := by
    simp [slotRestore, p_restoreTab, p_restoreTabUrl, SavedTab.clear]
  refine ⟨?_, ?_, hsaved, hrest, ?_, hsecond, ?_, ?_⟩
  · simp [slotRestore, p_restoreTab, p_restoreTabUrl]
  · simp [slotRestore, p_restoreTab, p_restoreTabUrl]
  · intro isRestoring
    simp [setCurrentTab, hrest]
  · simp [slotRestore, p_restoreTab, p_restoreTabUrl, SavedTab.clear]
  · intro hurl
    rw [hsecond, List.count_append]
    have : List.count self.m_savedTab.url [("" : QUrl)] = 0 :=
      List.count_eq_zero_of_not_mem (by simpa using hurl)
    rw [this]
    rfl

/-- C9 at a concrete input: the sample tab with the sample saved tab pending. -/
theorem slotRestore_loads_then_clears_witness :
    (slotRestore (restoreTab sampleQt true sampleTab sampleSaved)).m_webView.loadCalls
      = ["http://b.example/"] ∧
    (slotRestore (slotRestore (restoreTab sampleQt true sampleTab sampleSaved))).m_webView.loadCalls.count
        "http://b.example/" = 1 :=
  have hthm := slotRestore_loads_then_clears (restoreTab sampleQt true sampleTab sampleSaved)
  ⟨hthm.1, (hthm.2.2.2.2.2.2.2 (by decide)).trans (by decide)⟩

/-- C10: reading with `operator>>` what `operator<<` wrote for a saved tab `t`
(version, title, URL, 16-pixel pixmap, history), whatever follows in the stream
and whatever the target tab held, succeeds, leaves exactly what follows, and
gives a tab with the title, URL and history of `t` (its icon is made from the
pixmap); with any other number in place of the version the result is the same. -/
theorem savedTab_stream_roundtrip (qt : QtGui) (t target : SavedTab) (rest : QDataStream) :
    writeSavedTab qt [] t
      = [.int savedTabVersion, .string t.title, .url t.url, .pixmap (qt.pixmap t.icon 16),
         .byteArray t.history] ∧
    readSavedTab qt (writeSavedTab qt [] t ++ rest) target
      = some (rest, { title := t.title, url := t.url,
                      icon := qt.iconOfPixmap (qt.pixmap t.icon 16), history := t.history }) ∧
    (∀ version : Int,
      readSavedTab qt (.int version :: ((writeSavedTab qt [] t).tail ++ rest)) target
        = readSavedTab qt (writeSavedTab qt [] t ++ rest) target) := by
  refine ⟨rfl, rfl, ?_⟩
  intro version
  rfl

end WebTab
